import Mathlib

/-!
Verification of the key/BPM analyzer core (audio_analyzer.py) against its
natural-language specification.

The source's numeric computations are embedded over the rationals.  The
chroma matrix is a 12-row matrix of frame series; the key estimator averages
each row, correlates the averaged profile with the twelve rotations of the
C-major binary profile and takes the key of maximal correlation, with
Python's max-over-dict-keys semantics (first key attaining the maximum, in
the insertion order C, C#, ..., B).  The external librosa calls
(decoding, onset detection, the two periodicity detectors, the raw spectral
transforms) are not repository code; their outcomes are the fields of
ExtractEnv, and the repository's control flow over those outcomes is
embedded exactly: any failure is swallowed by the try/except and surfaced
as the untyped None.
-/

set_option maxHeartbeats 1000000

/-- Tempo reconciliation from extract_features (lines 37-46): if the primary
and alternate estimates differ by more than 20 BPM use their mean, else the
primary. -/
def reconcileTempo (tempo tempo_alt : ℚ) : ℚ :=
  if |tempo - tempo_alt| > 20 then (tempo + tempo_alt) / 2 else tempo

/-- Genre rule table from predict_genre (lines 130-139), first match wins. -/
def predictGenreRules (bpm spectral_centroid zcr : ℚ) : String :=
  if bpm > 140 ∧ spectral_centroid > 3000 then "Electronic/Dance"
  else if bpm > 120 then "Pop/Rock"
  else if spectral_centroid < 2000 ∧ zcr < 0.1 then "Classical"
  else if spectral_centroid > 2500 ∧ bpm < 100 then "Jazz"
  else "Other"

/-- The five labels the rule table can produce. -/
def genreLabels : List String :=
  ["Electronic/Dance", "Pop/Rock", "Classical", "Jazz", "Other"]

/-- The twelve pitch-class names, in the order the source inserts them
(line 54). -/
def key_names : List String :=
  ["C", "C#", "D", "D#", "E", "F"] ++ ["F#", "G", "G#", "A", "A#", "B"]

/-- Name of the i-th pitch class. -/
def key_name (i : Fin 12) : String :=
  key_names.getD i.val "C"

/-- The C-major binary profile [1, 0, 1, 0, 1, 1, 0, 1, 0, 1, 0, 1] of
line 52, written positionally. -/
def base_profile : Fin 12 → ℚ := fun j =>
  match j.val with
  | 0 => 1 | 1 => 0 | 2 => 1 | 3 => 0 | 4 => 1 | 5 => 1
  | 6 => 0 | 7 => 1 | 8 => 0 | 9 => 1 | 10 => 0 | _ => 1

/-- Cyclic right shift by i semitones, as np.roll: (np.roll x i) j = x (j-i). -/
def rollF (x : Fin 12 → ℚ) (i : Fin 12) : Fin 12 → ℚ :=
  fun j => x (j - i)

/-- The i-th key profile template: np.roll(base_profile, i) (line 56). -/
def tmplF (i : Fin 12) : Fin 12 → ℚ := rollF base_profile i

/-- Sum of a 12-vector. -/
def sumF (x : Fin 12 → ℚ) : ℚ := ∑ j, x j

/-- Dot product of two 12-vectors. -/
def dotF (x y : Fin 12 → ℚ) : ℚ := ∑ j, x j * y j

/-- Scaled covariance numerator 12 * dot x y - sum x * sum y; this equals
144 times the covariance of x and y, the numerator of the Pearson
correlation coefficient up to the positive factor 12. -/
def covNum (x y : Fin 12 → ℚ) : ℚ :=
  12 * dotF x y - sumF x * sumF y

/-- Pearson correlation coefficient, as computed by np.corrcoef(x, y)[0, 1]
(line 62): since covNum x y = 144 * cov(x, y) and covNum x x = 144 * var(x),
the scaling factors cancel and this quotient is exactly the Pearson r. -/
noncomputable def corrcoef (x y : Fin 12 → ℚ) : ℝ :=
  (covNum x y : ℝ) / (Real.sqrt (covNum x x) * Real.sqrt (covNum y y))

/-- Correlation score numerator of template i against profile p.  Because
all twelve templates are rotations of one profile they share a single
variance, so comparing these numerators orders the key_scores of line 63
exactly as the Pearson correlations do (made precise in
corrcoef_le_corrcoef below). -/
def keyScoreNum (p : Fin 12 → ℚ) (i : Fin 12) : ℚ :=
  covNum p (tmplF i)

/-- Fold implementing Python max: keep the current best, replace only on a
strictly greater score, so the first key attaining the maximum wins. -/
def pyFold (f : Fin 12 → ℚ) : List (Fin 12) → Fin 12 → Fin 12
  | [], a => a
  | j :: js, a => pyFold f js (if f a < f j then j else a)

/-- Index selected by max(key_scores, key=key_scores.get) (line 66): start
from the first key C and scan the remaining eleven in insertion order. -/
def pyMax (f : Fin 12 → ℚ) : Fin 12 :=
  pyFold f ((List.finRange 12).drop 1) 0

/-- Rotation index of the best key for an averaged chroma profile. -/
def bestIdx (p : Fin 12 → ℚ) : Fin 12 :=
  pyMax (keyScoreNum p)

/-- The best_key of line 66 for an averaged chroma profile. -/
def best_key (p : Fin 12 → ℚ) : String :=
  key_name (bestIdx p)

/-- Mean of one chroma row (np.mean over axis 1, line 59). -/
def rowMean (l : List ℚ) : ℚ :=
  l.sum / l.length

/-- Averaged chroma profile of a 12-row chroma matrix. -/
def chromaMeanF (M : Fin 12 → List ℚ) : Fin 12 → ℚ :=
  fun i => rowMean (M i)

/-- Key detected for a chroma matrix (lines 59-67). -/
def keyOfChroma (M : Fin 12 → List ℚ) : String :=
  best_key (chromaMeanF M)

/-- The features dict built by extract_features.  Each entry is optional
because a Python dict can lack a key; extract_features itself always
populates every field. -/
structure FeatureMap where
  bpm : Option ℚ
  key : Option String
  mfcc_mean : Option (List ℚ)
  mfcc_std : Option (List ℚ)
  spectral_centroid_mean : Option ℚ
  spectral_centroid_std : Option ℚ
  zcr_mean : Option ℚ
  zcr_std : Option ℚ
  rolloff_mean : Option ℚ
  rolloff_std : Option ℚ
deriving DecidableEq

/-- predict_genre (lines 120-147): read the three dict entries inside the
try block, classify with the rule table; a missing entry raises KeyError,
which the except clause turns into "Unknown". -/
def predict_genre (features : FeatureMap) : String :=
  match features.bpm, features.spectral_centroid_mean, features.zcr_mean with
  | some b, some s, some z => predictGenreRules b s z
  | _, _, _ => "Unknown"

/-- The result dict assembled by analyze_song on success. -/
structure AnalysisResult where
  key : String
  bpm : ℚ
  genre : String
  features : FeatureMap
deriving DecidableEq

/-- Outcomes of the external collaborators on one audio input: whether the
file exists, whether librosa.load succeeds, whether every spectral/cepstral
transform runs (false e.g. for a buffer shorter than one analysis window),
and the numeric outputs of the librosa feature extractors. -/
structure ExtractEnv where
  fileExists : Bool
  decodeOk : Bool
  transformOk : Bool
  tempo : ℚ
  tempo_alt : ℚ
  chroma : Fin 12 → List ℚ
  mfcc_mean : List ℚ
  mfcc_std : List ℚ
  spectral_centroid_mean : ℚ
  spectral_centroid_std : ℚ
  zcr_mean : ℚ
  zcr_std : ℚ
  rolloff_mean : ℚ
  rolloff_std : ℚ

/-- extract_features (lines 13-116): a missing file returns None (line 21);
a failure of librosa.load or of any transform raises, is caught by the
blanket except (line 97) and returns None (line 116); otherwise every dict
entry is populated. -/
def extract_features (e : ExtractEnv) : Option FeatureMap :=
  if e.fileExists = false then none
  else if e.decodeOk = false then none
  else if e.transformOk = false then none
  else some
    { bpm := some (reconcileTempo e.tempo e.tempo_alt)
      key := some (keyOfChroma e.chroma)
      mfcc_mean := some e.mfcc_mean
      mfcc_std := some e.mfcc_std
      spectral_centroid_mean := some e.spectral_centroid_mean
      spectral_centroid_std := some e.spectral_centroid_std
      zcr_mean := some e.zcr_mean
      zcr_std := some e.zcr_std
      rolloff_mean := some e.rolloff_mean
      rolloff_std := some e.rolloff_std }

/-- Round-half-to-even at the integer, as Python's round ties-to-even. -/
def roundHalfEven (q : ℚ) : ℤ :=
  if q - ⌊q⌋ < 1/2 then ⌊q⌋
  else if 1/2 < q - ⌊q⌋ then ⌊q⌋ + 1
  else if ⌊q⌋ % 2 = 0 then ⌊q⌋ else ⌊q⌋ + 1

/-- round(q, 2) of line 163. -/
def round2 (q : ℚ) : ℚ :=
  (roundHalfEven (q * 100) : ℚ) / 100

/-- The result-dict construction of lines 161-166.  Reading a missing dict
key raises KeyError, which analyze_song does not catch, so the assembly is
fallible; the dict literal evaluates features['key'] before
features['bpm']. -/
def assemble (features : FeatureMap) : Except String AnalysisResult :=
  match features.key, features.bpm with
  | some k, some b =>
      Except.ok
        { key := k
          bpm := round2 b
          genre := predict_genre features
          features := features }
  | none, _ => Except.error "KeyError: key"
  | some _, none => Except.error "KeyError: bpm"

/-- analyze_song (lines 149-169): failed extraction returns None; otherwise
the genre is predicted and the result dict assembled.  An uncaught
exception during assembly is the Except.error case. -/
def analyze_song (e : ExtractEnv) : Except String (Option AnalysisResult) :=
  match extract_features e with
  | none => Except.ok none
  | some features => (assemble features).map some

/-- The fully populated feature dict extract_features builds when every
external call succeeds. -/
def fullFeatures (e : ExtractEnv) : FeatureMap :=
  { bpm := some (reconcileTempo e.tempo e.tempo_alt)
    key := some (keyOfChroma e.chroma)
    mfcc_mean := some e.mfcc_mean
    mfcc_std := some e.mfcc_std
    spectral_centroid_mean := some e.spectral_centroid_mean
    spectral_centroid_std := some e.spectral_centroid_std
    zcr_mean := some e.zcr_mean
    zcr_std := some e.zcr_std
    rolloff_mean := some e.rolloff_mean
    rolloff_std := some e.rolloff_std }

/-- Modelled from the spec: the error kinds of section 7 (InputError,
TransformError, EstimationError).  The source code declares no such type;
its only failure value is the untyped None. -/
inductive FailureKind where
  | InputError
  | TransformError
  | EstimationError
deriving DecidableEq

/-- All ten feature fields are populated. -/
def allFieldsSome (f : FeatureMap) : Prop :=
  f.bpm.isSome = true ∧ f.key.isSome = true ∧ f.mfcc_mean.isSome = true ∧
  f.mfcc_std.isSome = true ∧ f.spectral_centroid_mean.isSome = true ∧
  f.spectral_centroid_std.isSome = true ∧ f.zcr_mean.isSome = true ∧
  f.zcr_std.isSome = true ∧ f.rolloff_mean.isSome = true ∧
  f.rolloff_std.isSome = true

/-- Projection reading the bpm of a successful analysis outcome. -/
def resultBpm : Except String (Option AnalysisResult) → Option ℚ
  | Except.ok (some r) => some r.bpm
  | _ => none

/-- An all-zero chroma matrix placeholder for concrete environments. -/
def chroma0 : Fin 12 → List ℚ := fun _ => []

/-- Environment of a missing audio file. -/
def envNoFile : ExtractEnv :=
  ⟨false, true, true, 120, 118, chroma0, [], [], 0, 0, 0, 0, 0, 0⟩

/-- Environment of a buffer shorter than one analysis window: the file
loads but the spectral transforms fail. -/
def envShortBuf : ExtractEnv :=
  ⟨true, true, false, 120, 118, chroma0, [], [], 0, 0, 0, 0, 0, 0⟩

/-- Environment where the decoding collaborator (librosa.load) fails. -/
def envDecodeFail : ExtractEnv :=
  ⟨true, false, true, 120, 118, chroma0, [], [], 0, 0, 0, 0, 0, 0⟩

/-- Environment where decoding succeeds but the analysis transforms fail. -/
def envXformFail : ExtractEnv :=
  ⟨true, true, false, 120, 118, chroma0, [], [], 0, 0, 0, 0, 0, 0⟩

/-- Environment whose two periodicity detectors both report 0 BPM, as for a
silent buffer; everything else succeeds. -/
def envZeroTempo : ExtractEnv :=
  ⟨true, true, true, 0, 0, chroma0, [], [], 0, 0, 0, 0, 0, 0⟩

/-- A fully successful environment for witnesses of C4. -/
def env4 : ExtractEnv :=
  ⟨true, true, true, 120, 118, chroma0, [], [], 2500, 0, 5, 0, 0, 0⟩

/-- A fully successful environment for witnesses of C8, with tempo
estimates 130 and 100 so that reconciliation averages. -/
def env8 : ExtractEnv :=
  ⟨true, true, true, 130, 100, chroma0, [], [], 0, 0, 0, 0, 0, 0⟩

/-- The feature map extract_features produces on env8. -/
def feat8 : FeatureMap :=
  ⟨some 115, some "C", some [], some [], some 0, some 0, some 0, some 0,
   some 0, some 0⟩

/-- A feature map lacking the bpm entry. -/
def featNoBpm : FeatureMap :=
  ⟨none, some "C", some [], some [], some 2600, some 0, some (1/100),
   some 0, some 0, some 0⟩

/-- A feature map lacking only the zcr_mean entry. -/
def featNoZcr : FeatureMap :=
  ⟨some 100, some "C", some [], some [], some 2600, some 0, none,
   some 0, some 0, some 0⟩

/-- Averaged chroma profile [1, 1, 1, 1, 2, 1, 1, 1, 1, 1, 1, 2] with a
genuine exact tie: it has the same correlation with the C template as with
several others, and the set of maximizing rotations is not invariant under
shifting by one semitone. -/
def profileTie : Fin 12 → ℚ := fun j =>
  match j.val with
  | 4 => 2 | 11 => 2 | _ => 1

/-- Chroma matrix whose row means are the base profile. -/
def chromaBase : Fin 12 → List ℚ := fun i => [base_profile i]

/-! Helper lemmas: explicit expansions of twelve-fold sums, rotation
invariance of sums and dot products, the order theory of the Python max
scan, and the bridge between covariance numerators and Pearson
correlations. -/

lemma sum_univ_nine {M : Type} [AddCommMonoid M] (f : Fin 9 → M) :
    ∑ i, f i = f 0 + f 1 + f 2 + f 3 + f 4 + f 5 + f 6 + f 7 + f 8 := by
  rw [Fin.sum_univ_castSucc, Fin.sum_univ_eight]; rfl

lemma sum_univ_ten {M : Type} [AddCommMonoid M] (f : Fin 10 → M) :
    ∑ i, f i = f 0 + f 1 + f 2 + f 3 + f 4 + f 5 + f 6 + f 7 + f 8 + f 9 := by
  rw [Fin.sum_univ_castSucc, sum_univ_nine]; rfl

lemma sum_univ_eleven {M : Type} [AddCommMonoid M] (f : Fin 11 → M) :
    ∑ i, f i = f 0 + f 1 + f 2 + f 3 + f 4 + f 5 + f 6 + f 7 + f 8 + f 9 + f 10 := by
  rw [Fin.sum_univ_castSucc, sum_univ_ten]; rfl

lemma sum_univ_twelve {M : Type} [AddCommMonoid M] (f : Fin 12 → M) :
    ∑ i, f i =
      f 0 + f 1 + f 2 + f 3 + f 4 + f 5 + f 6 + f 7 + f 8 + f 9 + f 10 + f 11 := by
  rw [Fin.sum_univ_castSucc, sum_univ_eleven]; rfl

lemma sumF_expand (x : Fin 12 → ℚ) :
    sumF x =
      x 0 + x 1 + x 2 + x 3 + x 4 + x 5 + x 6 + x 7 + x 8 + x 9 + x 10 + x 11 :=
  sum_univ_twelve x

lemma sum_rollF (x : Fin 12 → ℚ) (k : Fin 12) : sumF (rollF x k) = sumF x := by
  unfold sumF rollF
  rw [← Equiv.sum_comp (Equiv.subRight k) x]
  rfl

lemma dotF_roll_right (x y : Fin 12 → ℚ) (k : Fin 12) :
    dotF x (rollF y k) = ∑ j, x (j + k) * y j := by
  unfold dotF rollF
  rw [← Equiv.sum_comp (Equiv.addRight k) (fun j => x j * y (j - k))]
  apply Finset.sum_congr rfl
  intro j _
  simp only [Equiv.coe_addRight]
  congr 2
  ring

lemma dotF_rollF_rollF (x y : Fin 12 → ℚ) (a b : Fin 12) :
    dotF (rollF x a) (rollF y b) = dotF x (rollF y (b - a)) := by
  unfold dotF rollF
  rw [← Equiv.sum_comp (Equiv.addRight a) (fun j => x (j - a) * y (j - b))]
  apply Finset.sum_congr rfl
  intro j _
  simp only [Equiv.coe_addRight]
  congr 2
  · ring
  · ring

lemma rollF_zero (x : Fin 12 → ℚ) : rollF x 0 = x := by
  funext j
  rw [rollF, sub_zero]

lemma keyScoreNum_roll (p : Fin 12 → ℚ) (i : Fin 12) :
    keyScoreNum (rollF p 1) i = keyScoreNum p (i - 1) := by
  unfold keyScoreNum covNum tmplF
  rw [dotF_rollF_rollF]
  simp only [sum_rollF]

lemma covNum_base : covNum base_profile base_profile = 35 := by
  rw [covNum, dotF, sum_univ_twelve, sumF_expand]
  norm_num [base_profile]

lemma tmpl_var (i : Fin 12) : covNum (tmplF i) (tmplF i) = 35 := by
  unfold covNum tmplF
  rw [dotF_rollF_rollF, sub_self, rollF_zero]
  simp only [sum_rollF]
  exact covNum_base

lemma pyFold_invariant (f : Fin 12 → ℚ) (l : List (Fin 12)) :
    l.Pairwise (· < ·) →
    ∀ a : Fin 12, (∀ j ∈ l, a < j) →
    (∀ j : Fin 12, j ∉ l → j ≠ a → f j < f a ∨ (f j = f a ∧ a < j)) →
    ∀ j : Fin 12, j ≠ pyFold f l a →
      f j < f (pyFold f l a) ∨ (f j = f (pyFold f l a) ∧ pyFold f l a < j) := by
  induction l with
  | nil =>
      intro _ a _ hproc j hj
      exact hproc j (List.not_mem_nil j) hj
  | cons b bs ih =>
      intro hpw a hlt hproc j hj
      have hab : a < b := hlt b (List.mem_cons_self b bs)
      have hpw' : bs.Pairwise (· < ·) := (List.pairwise_cons.mp hpw).2
      have hbbs : ∀ x ∈ bs, b < x := (List.pairwise_cons.mp hpw).1
      by_cases hc : f a < f b
      · have e1 : pyFold f (b :: bs) a = pyFold f bs b := by
          simp only [pyFold, if_pos hc]
        rw [e1] at hj ⊢
        refine ih hpw' b hbbs ?_ j hj
        intro k hk hkb
        by_cases hka : k = a
        · subst hka; left; exact hc
        · have hknotin : k ∉ b :: bs := by
            simp only [List.mem_cons, not_or]; exact ⟨hkb, hk⟩
          rcases hproc k hknotin hka with h | ⟨h1, _⟩
          · left; exact lt_trans h hc
          · left; rw [h1]; exact hc
      · have e1 : pyFold f (b :: bs) a = pyFold f bs a := by
          simp only [pyFold, if_neg hc]
        rw [e1] at hj ⊢
        refine ih hpw' a (fun x hx => lt_trans hab (hbbs x hx)) ?_ j hj
        intro k hk hka
        by_cases hkb : k = b
        · subst hkb
          rcases lt_or_eq_of_le (not_lt.mp hc) with h | h
          · left; exact h
          · right; exact ⟨h, hab⟩
        · have hknotin : k ∉ b :: bs := by
            simp only [List.mem_cons, not_or]; exact ⟨hkb, hk⟩
          exact hproc k hknotin hka

lemma pyMax_spec (f : Fin 12 → ℚ) :
    ∀ j : Fin 12, j ≠ pyMax f →
      f j < f (pyMax f) ∨ (f j = f (pyMax f) ∧ pyMax f < j) := by
  intro j hj
  refine pyFold_invariant f ((List.finRange 12).drop 1) (by decide) 0
    (by decide) ?_ j hj
  intro k hk hk0
  exfalso
  have hmem : ∀ m : Fin 12, m = 0 ∨ m ∈ (List.finRange 12).drop 1 := by decide
  rcases hmem k with h | h
  · exact hk0 h
  · exact hk h

lemma le_pyMax (f : Fin 12 → ℚ) (j : Fin 12) : f j ≤ f (pyMax f) := by
  by_cases h : j = pyMax f
  · rw [h]
  · rcases pyMax_spec f j h with h1 | ⟨h1, _⟩
    · exact le_of_lt h1
    · exact le_of_eq h1

lemma pyMax_le_of_eq (f : Fin 12 → ℚ) (j : Fin 12) (h : f j = f (pyMax f)) :
    pyMax f ≤ j := by
  by_cases hj : j = pyMax f
  · rw [hj]
  · rcases pyMax_spec f j hj with h1 | ⟨_, h2⟩
    · exact absurd h h1.ne
    · exact le_of_lt h2

lemma pyMax_eq_of_unique (f : Fin 12 → ℚ) (k : Fin 12)
    (h : ∀ j, j ≠ k → f j < f k) : pyMax f = k := by
  by_contra hne
  have h1 : f (pyMax f) < f k := h _ hne
  have h2 : f k ≤ f (pyMax f) := le_pyMax f k
  exact absurd h1 (not_lt.mpr h2)

lemma sumF_base : sumF base_profile = 7 := by
  rw [sumF_expand]
  norm_num [base_profile]

lemma keyScoreNum_eval (p : Fin 12 → ℚ) (i : Fin 12) :
    keyScoreNum p i =
      12 * (p (0 + i) * base_profile 0 + p (1 + i) * base_profile 1 +
        p (2 + i) * base_profile 2 + p (3 + i) * base_profile 3 +
        p (4 + i) * base_profile 4 + p (5 + i) * base_profile 5 +
        p (6 + i) * base_profile 6 + p (7 + i) * base_profile 7 +
        p (8 + i) * base_profile 8 + p (9 + i) * base_profile 9 +
        p (10 + i) * base_profile 10 + p (11 + i) * base_profile 11) -
      sumF p * 7 := by
  rw [keyScoreNum, covNum, tmplF, dotF_roll_right, sum_univ_twelve,
    sum_rollF, sumF_base]

lemma finRange_drop_one :
    (List.finRange 12).drop 1 = [1, 2, 3, 4, 5, 6, 7, 8, 9, 10, 11] := rfl

lemma corrcoef_le_corrcoef (p t u : Fin 12 → ℚ) (hp : 0 < covNum p p)
    (ht : covNum t t = 35) (hu : covNum u u = 35) :
    (corrcoef p t ≤ corrcoef p u ↔ covNum p t ≤ covNum p u) := by
  unfold corrcoef
  rw [ht, hu]
  have hd : (0 : ℝ) < Real.sqrt ((covNum p p : ℚ) : ℝ) *
      Real.sqrt (((35 : ℚ) : ℝ)) := by
    apply mul_pos
    · exact Real.sqrt_pos.mpr (by exact_mod_cast hp)
    · apply Real.sqrt_pos.mpr
      norm_num
  rw [div_le_div_iff_of_pos_right hd]
  exact_mod_cast Iff.rfl


lemma covNum_zero_left (y : Fin 12 → ℚ) : covNum (fun _ => (0 : ℚ)) y = 0 := by
  simp [covNum, dotF, sumF]

lemma bestIdx_zero : bestIdx (fun _ => (0 : ℚ)) = 0 := by
  simp only [bestIdx, pyMax, finRange_drop_one]
  simp [pyFold, keyScoreNum, covNum_zero_left]

lemma chromaMeanF_chroma0 : chromaMeanF chroma0 = fun _ => (0 : ℚ) := by
  funext i
  simp [chromaMeanF, chroma0, rowMean]

lemma keyOfChroma_chroma0 : keyOfChroma chroma0 = "C" := by
  rw [keyOfChroma, chromaMeanF_chroma0, best_key, bestIdx_zero]
  rfl

lemma chromaMeanF_chromaBase : chromaMeanF chromaBase = base_profile := by
  funext i
  simp [chromaMeanF, chromaBase, rowMean]




lemma sb0 : keyScoreNum base_profile 0 = 35 := by
  rw [keyScoreNum_eval]
  norm_num [sumF_expand, base_profile]

lemma sb1 : keyScoreNum base_profile 1 = -25 := by
  rw [keyScoreNum_eval]
  norm_num [sumF_expand, base_profile]

lemma sb2 : keyScoreNum base_profile 2 = 11 := by
  rw [keyScoreNum_eval]
  norm_num [sumF_expand, base_profile]

lemma sb3 : keyScoreNum base_profile 3 = -1 := by
  rw [keyScoreNum_eval]
  norm_num [sumF_expand, base_profile]

lemma sb4 : keyScoreNum base_profile 4 = -13 := by
  rw [keyScoreNum_eval]
  norm_num [sumF_expand, base_profile]

lemma sb5 : keyScoreNum base_profile 5 = 23 := by
  rw [keyScoreNum_eval]
  norm_num [sumF_expand, base_profile]

lemma sb6 : keyScoreNum base_profile 6 = -25 := by
  rw [keyScoreNum_eval]
  norm_num [sumF_expand, base_profile]

lemma sb7 : keyScoreNum base_profile 7 = 23 := by
  rw [keyScoreNum_eval]
  norm_num [sumF_expand, base_profile]

lemma sb8 : keyScoreNum base_profile 8 = -13 := by
  rw [keyScoreNum_eval]
  norm_num [sumF_expand, base_profile]

lemma sb9 : keyScoreNum base_profile 9 = -1 := by
  rw [keyScoreNum_eval]
  norm_num [sumF_expand, base_profile]

lemma sb10 : keyScoreNum base_profile 10 = 11 := by
  rw [keyScoreNum_eval]
  norm_num [sumF_expand, base_profile]

lemma sb11 : keyScoreNum base_profile 11 = -25 := by
  rw [keyScoreNum_eval]
  norm_num [sumF_expand, base_profile]

lemma st0 : keyScoreNum profileTie 0 = 10 := by
  rw [keyScoreNum_eval]
  norm_num [sumF_expand, profileTie, base_profile]

lemma st1 : keyScoreNum profileTie 1 = -14 := by
  rw [keyScoreNum_eval]
  norm_num [sumF_expand, profileTie, base_profile]

lemma st2 : keyScoreNum profileTie 2 = 10 := by
  rw [keyScoreNum_eval]
  norm_num [sumF_expand, profileTie, base_profile]

lemma st3 : keyScoreNum profileTie 3 = -14 := by
  rw [keyScoreNum_eval]
  norm_num [sumF_expand, profileTie, base_profile]

lemma st4 : keyScoreNum profileTie 4 = 10 := by
  rw [keyScoreNum_eval]
  norm_num [sumF_expand, profileTie, base_profile]

lemma st5 : keyScoreNum profileTie 5 = -2 := by
  rw [keyScoreNum_eval]
  norm_num [sumF_expand, profileTie, base_profile]

lemma st6 : keyScoreNum profileTie 6 = -2 := by
  rw [keyScoreNum_eval]
  norm_num [sumF_expand, profileTie, base_profile]

lemma st7 : keyScoreNum profileTie 7 = 10 := by
  rw [keyScoreNum_eval]
  norm_num [sumF_expand, profileTie, base_profile]

lemma st8 : keyScoreNum profileTie 8 = -14 := by
  rw [keyScoreNum_eval]
  norm_num [sumF_expand, profileTie, base_profile]

lemma st9 : keyScoreNum profileTie 9 = 10 := by
  rw [keyScoreNum_eval]
  norm_num [sumF_expand, profileTie, base_profile]

lemma st10 : keyScoreNum profileTie 10 = -14 := by
  rw [keyScoreNum_eval]
  norm_num [sumF_expand, profileTie, base_profile]

lemma st11 : keyScoreNum profileTie 11 = 10 := by
  rw [keyScoreNum_eval]
  norm_num [sumF_expand, profileTie, base_profile]

lemma bestIdx_base : bestIdx base_profile = 0 := by
  simp only [bestIdx, pyMax, finRange_drop_one]
  norm_num [pyFold, sb0, sb1, sb2, sb3, sb4, sb5, sb6, sb7, sb8, sb9, sb10,
    sb11]

lemma bestIdx_profileTie : bestIdx profileTie = 0 := by
  simp only [bestIdx, pyMax, finRange_drop_one]
  norm_num [pyFold, st0, st1, st2, st3, st4, st5, st6, st7, st8, st9, st10,
    st11]

lemma str0 : keyScoreNum (rollF profileTie 1) 0 = 10 := by
  rw [keyScoreNum_roll]
  exact st11

lemma str1 : keyScoreNum (rollF profileTie 1) 1 = 10 := by
  rw [keyScoreNum_roll]
  exact st0

lemma str2 : keyScoreNum (rollF profileTie 1) 2 = -14 := by
  rw [keyScoreNum_roll]
  exact st1

lemma str3 : keyScoreNum (rollF profileTie 1) 3 = 10 := by
  rw [keyScoreNum_roll]
  exact st2

lemma str4 : keyScoreNum (rollF profileTie 1) 4 = -14 := by
  rw [keyScoreNum_roll]
  exact st3

lemma str5 : keyScoreNum (rollF profileTie 1) 5 = 10 := by
  rw [keyScoreNum_roll]
  exact st4

lemma str6 : keyScoreNum (rollF profileTie 1) 6 = -2 := by
  rw [keyScoreNum_roll]
  exact st5

lemma str7 : keyScoreNum (rollF profileTie 1) 7 = -2 := by
  rw [keyScoreNum_roll]
  exact st6

lemma str8 : keyScoreNum (rollF profileTie 1) 8 = 10 := by
  rw [keyScoreNum_roll]
  exact st7

lemma str9 : keyScoreNum (rollF profileTie 1) 9 = -14 := by
  rw [keyScoreNum_roll]
  exact st8

lemma str10 : keyScoreNum (rollF profileTie 1) 10 = 10 := by
  rw [keyScoreNum_roll]
  exact st9

lemma str11 : keyScoreNum (rollF profileTie 1) 11 = -14 := by
  rw [keyScoreNum_roll]
  exact st10

lemma bestIdx_profileTie_roll : bestIdx (rollF profileTie 1) = 0 := by
  simp only [bestIdx, pyMax, finRange_drop_one]
  norm_num [pyFold, str0, str1, str2, str3, str4, str5, str6, str7, str8,
    str9, str10, str11]

lemma key_name_mem : ∀ i : Fin 12, key_name i ∈ key_names := by decide

lemma predictGenreRules_mem (b c z : ℚ) :
    predictGenreRules b c z ∈ genreLabels := by
  unfold predictGenreRules genreLabels
  split_ifs <;> simp

lemma extract_features_none (e : ExtractEnv)
    (h : e.fileExists = false ∨ e.decodeOk = false ∨ e.transformOk = false) :
    extract_features e = none := by
  unfold extract_features
  split_ifs with h1 h2 h3
  · rfl
  · rfl
  · rfl
  · rcases h with h | h | h
    · exact absurd h h1
    · exact absurd h h2
    · exact absurd h h3

lemma analyze_song_none (e : ExtractEnv)
    (h : e.fileExists = false ∨ e.decodeOk = false ∨ e.transformOk = false) :
    analyze_song e = Except.ok none := by
  unfold analyze_song
  rw [extract_features_none e h]

lemma extract_features_flags (e : ExtractEnv) (h1 : e.fileExists = true)
    (h2 : e.decodeOk = true) (h3 : e.transformOk = true) :
    extract_features e = some (fullFeatures e) := by
  unfold extract_features fullFeatures
  rw [h1, h2, h3]
  simp

lemma extract_features_eq_some (e : ExtractEnv) (f : FeatureMap)
    (h : extract_features e = some f) : f = fullFeatures e := by
  unfold extract_features at h
  split_ifs at h
  exact (Option.some.inj h).symm

lemma analyze_song_success (e : ExtractEnv) (h1 : e.fileExists = true)
    (h2 : e.decodeOk = true) (h3 : e.transformOk = true) :
    analyze_song e = Except.ok (some
      { key := keyOfChroma e.chroma
        bpm := round2 (reconcileTempo e.tempo e.tempo_alt)
        genre := predict_genre (fullFeatures e)
        features := fullFeatures e }) := by
  unfold analyze_song
  rw [extract_features_flags e h1 h2 h3]
  rfl

lemma predict_genre_full (e : ExtractEnv) :
    predict_genre (fullFeatures e) =
      predictGenreRules (reconcileTempo e.tempo e.tempo_alt)
        e.spectral_centroid_mean e.zcr_mean := rfl

lemma roundHalfEven_ge_floor (q : ℚ) : ⌊q⌋ ≤ roundHalfEven q := by
  unfold roundHalfEven
  split_ifs <;> omega

lemma round2_pos (q : ℚ) (h : 1 ≤ q) : 0 < round2 q := by
  unfold round2
  apply div_pos _ (by norm_num)
  have h1 : (100 : ℤ) ≤ ⌊q * 100⌋ := by
    apply Int.le_floor.mpr
    push_cast
    linarith
  have h2 := roundHalfEven_ge_floor (q * 100)
  have h3 : (0 : ℤ) < roundHalfEven (q * 100) := by omega
  exact_mod_cast h3

lemma reconcileTempo_ge_one (p a : ℚ) (hp : 1 ≤ p) (ha : 1 ≤ a) :
    1 ≤ reconcileTempo p a := by
  unfold reconcileTempo
  split_ifs
  · linarith
  · exact hp

lemma bool_true_of_ne_false {b : Bool} (h : ¬b = false) : b = true := by
  cases b
  · exact absurd rfl h
  · rfl

lemma flags_of_extract_some (e : ExtractEnv) (f : FeatureMap)
    (h : extract_features e = some f) :
    e.fileExists = true ∧ e.decodeOk = true ∧ e.transformOk = true := by
  unfold extract_features at h
  split_ifs at h with h1 h2 h3
  exact ⟨bool_true_of_ne_false h1, bool_true_of_ne_false h2,
    bool_true_of_ne_false h3⟩

lemma forall_fin12 {P : Fin 12 → Prop} (h0 : P 0) (h1 : P 1) (h2 : P 2)
    (h3 : P 3) (h4 : P 4) (h5 : P 5) (h6 : P 6) (h7 : P 7) (h8 : P 8)
    (h9 : P 9) (h10 : P 10) (h11 : P 11) : ∀ j, P j := by
  intro j
  fin_cases j
  exacts [h0, h1, h2, h3, h4, h5, h6, h7, h8, h9, h10, h11]

lemma covNum_profileTie : covNum profileTie profileTie = 20 := by
  rw [covNum, dotF, sum_univ_twelve, sumF_expand]
  norm_num [profileTie]

lemma tie_max_at_2 : ∀ k, keyScoreNum profileTie k ≤ keyScoreNum profileTie 2 := by
  refine forall_fin12 ?_ ?_ ?_ ?_ ?_ ?_ ?_ ?_ ?_ ?_ ?_ ?_ <;>
    simp only [st0, st1, st2, st3, st4, st5, st6, st7, st8, st9, st10, st11] <;>
    norm_num

lemma base_unique_max :
    ∀ j, j ≠ bestIdx base_profile →
      keyScoreNum base_profile j < keyScoreNum base_profile (bestIdx base_profile) := by
  rw [bestIdx_base]
  refine forall_fin12 ?_ ?_ ?_ ?_ ?_ ?_ ?_ ?_ ?_ ?_ ?_ ?_ <;>
    intro h <;>
    simp only [sb0, sb1, sb2, sb3, sb4, sb5, sb6, sb7, sb8, sb9, sb10, sb11] <;>
    first
      | (exact absurd rfl h)
      | norm_num

lemma extract_env8 : extract_features env8 = some feat8 := by
  rw [extract_features_flags env8 rfl rfl rfl]
  unfold fullFeatures feat8
  norm_num [env8, reconcileTempo, keyOfChroma_chroma0]

/-- C1: tempo reconciliation — the reported bpm equals the arithmetic mean
of the primary and alternate estimates when they differ by more than 20
BPM, and equals the primary estimate otherwise; in particular primary 130
with alternate 100 yields 115, and primary 128 with alternate 132 yields
128. -/
theorem C1_tempo_reconciliation :
    (∀ tempo tempo_alt : ℚ, 20 < |tempo - tempo_alt| →
      reconcileTempo tempo tempo_alt = (tempo + tempo_alt) / 2) ∧
    (∀ tempo tempo_alt : ℚ, |tempo - tempo_alt| ≤ 20 →
      reconcileTempo tempo tempo_alt = tempo) ∧
    reconcileTempo 130 100 = 115 ∧ reconcileTempo 128 132 = 128 := by
  refine ⟨?_, ?_, by norm_num [reconcileTempo], by norm_num [reconcileTempo]⟩
  · intro p a h
    unfold reconcileTempo
    rw [if_pos h]
  · intro p a h
    unfold reconcileTempo
    rw [if_neg (not_lt.mpr h)]

/-- C1 witness: the averaging branch taken at the concrete pair 130, 100. -/
theorem C1_witness :
    20 < |(130 : ℚ) - 100| ∧ reconcileTempo 130 100 = (130 + 100) / 2 :=
  ⟨by norm_num, C1_tempo_reconciliation.1 130 100 (by norm_num)⟩

/-- C2: the genre classifier is a deterministic function of exactly the
bpm, spectral centroid mean and zcr mean, implementing the ordered rule
table with first match winning; bpm 150 with centroid 3500 yields
Electronic/Dance for every zcr, and bpm exactly 120 does not satisfy the
Pop/Rock threshold. -/
theorem C2_genre_rule_table :
    (∀ b c z : ℚ,
      (b > 140 ∧ c > 3000 → predictGenreRules b c z = "Electronic/Dance") ∧
      (¬(b > 140 ∧ c > 3000) → b > 120 →
        predictGenreRules b c z = "Pop/Rock") ∧
      (¬(b > 140 ∧ c > 3000) → ¬(b > 120) → c < 2000 ∧ z < 0.1 →
        predictGenreRules b c z = "Classical") ∧
      (¬(b > 140 ∧ c > 3000) → ¬(b > 120) → ¬(c < 2000 ∧ z < 0.1) →
        c > 2500 ∧ b < 100 → predictGenreRules b c z = "Jazz") ∧
      (¬(b > 140 ∧ c > 3000) → ¬(b > 120) → ¬(c < 2000 ∧ z < 0.1) →
        ¬(c > 2500 ∧ b < 100) → predictGenreRules b c z = "Other")) ∧
    (∀ z : ℚ, predictGenreRules 150 3500 z = "Electronic/Dance") ∧
    ¬((120 : ℚ) > 120) := by
  refine ⟨?_, ?_, by norm_num⟩
  · intro b c z
    unfold predictGenreRules
    refine ⟨fun h1 => ?_, fun h1 h2 => ?_, fun h1 h2 h3 => ?_,
      fun h1 h2 h3 h4 => ?_, fun h1 h2 h3 h4 => ?_⟩
    · rw [if_pos h1]
    · rw [if_neg h1, if_pos h2]
    · rw [if_neg h1, if_neg h2, if_pos h3]
    · rw [if_neg h1, if_neg h2, if_neg h3, if_pos h4]
    · rw [if_neg h1, if_neg h2, if_neg h3, if_neg h4]
  · intro z
    unfold predictGenreRules
    rw [if_pos (by norm_num)]

/-- C2 witness: rule one fires at bpm 150, centroid 3500, zcr 0.01. -/
theorem C2_witness :
    ((150 : ℚ) > 140 ∧ (3500 : ℚ) > 3000) ∧
    predictGenreRules 150 3500 (1 / 100) = "Electronic/Dance" :=
  ⟨by norm_num, (C2_genre_rule_table.1 150 3500 (1 / 100)).1 (by norm_num)⟩

/-- C3: the key estimator averages chroma energy across time frames,
correlates the profile against the twelve cyclic rotations of the binary
profile by Pearson correlation, and returns the pitch-class name of a
template of maximal correlation; the result is always one of the twelve
names.  The maximality statement assumes a non-constant averaged profile
(positive variance), as the Pearson coefficient is undefined otherwise. -/
theorem C3_key_estimation (M : Fin 12 → List ℚ) :
    keyOfChroma M ∈ key_names ∧
    keyOfChroma M = key_name (bestIdx (chromaMeanF M)) ∧
    (0 < covNum (chromaMeanF M) (chromaMeanF M) →
      ∀ j : Fin 12,
        corrcoef (chromaMeanF M) (tmplF j) ≤
          corrcoef (chromaMeanF M) (tmplF (bestIdx (chromaMeanF M)))) := by
  refine ⟨key_name_mem _, rfl, ?_⟩
  intro hp j
  rw [corrcoef_le_corrcoef (chromaMeanF M) (tmplF j)
    (tmplF (bestIdx (chromaMeanF M))) hp (tmpl_var j) (tmpl_var _)]
  exact le_pyMax (keyScoreNum (chromaMeanF M)) j

/-- C3 witness: on the chroma matrix whose row means are the base profile,
the variance is positive and the selected template maximizes the Pearson
correlation. -/
theorem C3_witness :
    0 < covNum (chromaMeanF chromaBase) (chromaMeanF chromaBase) ∧
    ∀ j : Fin 12,
      corrcoef (chromaMeanF chromaBase) (tmplF j) ≤
        corrcoef (chromaMeanF chromaBase)
          (tmplF (bestIdx (chromaMeanF chromaBase))) :=
  ⟨by rw [chromaMeanF_chromaBase, covNum_base]; norm_num,
   (C3_key_estimation chromaBase).2.2
     (by rw [chromaMeanF_chromaBase, covNum_base]; norm_num)⟩

/-- C4 counterexample: when both periodicity detectors report 0 BPM the
analysis still succeeds and returns a fully assembled result whose bpm
field is 0, so a successful analysis does not guarantee bpm > 0 as the
claim states. -/
theorem C4_counterexample : resultBpm (analyze_song envZeroTempo) = some 0 := by
  rw [analyze_song_success envZeroTempo rfl rfl rfl]
  norm_num [resultBpm, envZeroTempo, reconcileTempo, round2, roundHalfEven]

/-- C4 (amended): for every input the orchestrator returns either the
failure outcome None or a completely populated result whose key is one of
the twelve pitch-class names and whose genre is one of the five genre
labels; bpm > 0 additionally holds for that result whenever both upstream
tempo estimates are at least 1 BPM — the code itself never checks
positivity, as the counterexample shows. -/
theorem C4_complete_or_failure (e : ExtractEnv) :
    analyze_song e = Except.ok none ∨
    ∃ r : AnalysisResult, analyze_song e = Except.ok (some r) ∧
      r.key ∈ key_names ∧ r.genre ∈ genreLabels ∧
      allFieldsSome r.features ∧
      (1 ≤ e.tempo → 1 ≤ e.tempo_alt → 0 < r.bpm) := by
  by_cases hf : e.fileExists = false
  · exact Or.inl (analyze_song_none e (Or.inl hf))
  · by_cases hd : e.decodeOk = false
    · exact Or.inl (analyze_song_none e (Or.inr (Or.inl hd)))
    · by_cases ht : e.transformOk = false
      · exact Or.inl (analyze_song_none e (Or.inr (Or.inr ht)))
      · right
        refine ⟨_, analyze_song_success e (bool_true_of_ne_false hf)
          (bool_true_of_ne_false hd) (bool_true_of_ne_false ht),
          key_name_mem _, ?_, ?_, ?_⟩
        · show predict_genre (fullFeatures e) ∈ genreLabels
          rw [predict_genre_full]
          exact predictGenreRules_mem _ _ _
        · exact ⟨rfl, rfl, rfl, rfl, rfl, rfl, rfl, rfl, rfl, rfl⟩
        · exact fun h1 h2 =>
            round2_pos _ (reconcileTempo_ge_one _ _ h1 h2)

/-- C4 witness: the amended theorem instantiated at a fully successful
environment with tempo estimates 120 and 118, with the inner positivity
implication discharged at its concrete estimates. -/
theorem C4_witness :
    (analyze_song env4 = Except.ok none ∨
     ∃ r : AnalysisResult, analyze_song env4 = Except.ok (some r) ∧
       r.key ∈ key_names ∧ r.genre ∈ genreLabels ∧
       allFieldsSome r.features ∧
       (1 ≤ env4.tempo → 1 ≤ env4.tempo_alt → 0 < r.bpm)) ∧
    (1 : ℚ) ≤ env4.tempo ∧ (1 : ℚ) ≤ env4.tempo_alt :=
  ⟨C4_complete_or_failure env4, by norm_num [env4], by norm_num [env4]⟩

/-- C5 counterexample: a short-buffer failure and a missing-file failure
produce the identical untyped outcome None, so the surfaced failure carries
no kind that could distinguish a TransformError from an InputError. -/
theorem C5_counterexample :
    extract_features envShortBuf = extract_features envNoFile ∧
    analyze_song envShortBuf = Except.ok none ∧
    ¬∃ kindOf : Option FeatureMap → FailureKind,
      kindOf (extract_features envShortBuf) = FailureKind.TransformError ∧
      kindOf (extract_features envNoFile) = FailureKind.InputError := by
  refine ⟨rfl, rfl, ?_⟩
  rintro ⟨g, hg1, hg2⟩
  rw [show extract_features envShortBuf = extract_features envNoFile from rfl]
    at hg1
  rw [hg1] at hg2
  exact absurd hg2 (by decide)

/-- C5 (amended): any error at any stage aborts the whole analysis — no
partial result is ever produced — but the surfaced failure is the single
untyped None rather than a typed Failure with a kind, stage and cause; in
particular a buffer shorter than one analysis window yields this None
outcome (not a crash and not a zero-filled result), not a typed
TransformError. -/
theorem C5_abort_untyped (e : ExtractEnv)
    (h : e.fileExists = false ∨ e.decodeOk = false ∨ e.transformOk = false) :
    extract_features e = none ∧ analyze_song e = Except.ok none :=
  ⟨extract_features_none e h, analyze_song_none e h⟩

/-- C5 witness: the short-buffer environment aborts with the None outcome. -/
theorem C5_witness :
    extract_features envShortBuf = none ∧
    analyze_song envShortBuf = Except.ok none :=
  C5_abort_untyped envShortBuf (Or.inr (Or.inr rfl))

/-- C6 counterexample: for the tied profile [1,1,1,1,2,1,1,1,1,1,1,2] the
estimator selects C both before and after a one-semitone shift, so the
shifted run does not select the key one semitone higher. -/
theorem C6_counterexample :
    bestIdx (rollF profileTie 1) ≠ bestIdx profileTie + 1 ∧
    best_key profileTie = "C" ∧ best_key (rollF profileTie 1) = "C" := by
  refine ⟨?_, ?_, ?_⟩
  · rw [bestIdx_profileTie_roll, bestIdx_profileTie]
    decide
  · rw [best_key, bestIdx_profileTie]
    rfl
  · rw [best_key, bestIdx_profileTie_roll]
    rfl

/-- C6 (amended): rotation consistency holds whenever the maximal template
score is attained uniquely: shifting the averaged chroma profile up by one
semitone makes the estimator select the key exactly one semitone higher
(mod 12).  Under exact ties the first-key-wins selection can break the
relation, as the counterexample shows. -/
theorem C6_rotation_consistency (p : Fin 12 → ℚ)
    (h : ∀ j, j ≠ bestIdx p →
      keyScoreNum p j < keyScoreNum p (bestIdx p)) :
    bestIdx (rollF p 1) = bestIdx p + 1 ∧
    best_key (rollF p 1) = key_name (bestIdx p + 1) := by
  have hmain : bestIdx (rollF p 1) = bestIdx p + 1 := by
    apply pyMax_eq_of_unique
    intro j hj
    rw [keyScoreNum_roll, keyScoreNum_roll, add_sub_cancel_right]
    apply h
    intro hc
    apply hj
    rw [← hc]
    ring
  exact ⟨hmain, by rw [best_key, hmain]⟩

/-- C6 witness: the base profile has a unique maximal template (C), and the
shifted profile selects C#. -/
theorem C6_witness :
    (∀ j, j ≠ bestIdx base_profile →
      keyScoreNum base_profile j <
        keyScoreNum base_profile (bestIdx base_profile)) ∧
    bestIdx (rollF base_profile 1) = bestIdx base_profile + 1 :=
  ⟨base_unique_max, (C6_rotation_consistency base_profile base_unique_max).1⟩

/-- C7: tie-break determinism — whenever template j attains the maximal
Pearson correlation (so in particular when several templates tie exactly),
the selected rotation index is at most j: the lowest maximizing rotation
index, earliest in the fixed order C, C#, ..., B, is returned, and the
selected template's correlation equals the maximal one. -/
theorem C7_tiebreak (p : Fin 12 → ℚ) (j : Fin 12)
    (hp : 0 < covNum p p)
    (hj : ∀ k, corrcoef p (tmplF k) ≤ corrcoef p (tmplF j)) :
    bestIdx p ≤ j ∧
    corrcoef p (tmplF (bestIdx p)) = corrcoef p (tmplF j) ∧
    best_key p = key_name (bestIdx p) := by
  have hnum : ∀ k, keyScoreNum p k ≤ keyScoreNum p j := by
    intro k
    have h := hj k
    rwa [corrcoef_le_corrcoef p (tmplF k) (tmplF j) hp (tmpl_var k)
      (tmpl_var j)] at h
  have heq : keyScoreNum p j = keyScoreNum p (bestIdx p) := by
    apply le_antisymm
    · exact le_pyMax (keyScoreNum p) j
    · exact hnum _
  refine ⟨pyMax_le_of_eq (keyScoreNum p) j heq, ?_, rfl⟩
  apply le_antisymm
  · exact hj _
  · rw [corrcoef_le_corrcoef p (tmplF j) (tmplF (bestIdx p)) hp (tmpl_var j)
      (tmpl_var _)]
    exact le_of_eq heq

/-- C7 witness: the tied profile attains its maximal correlation also at
rotation 2, and the selection picks an index at most 2 (namely 0, the
lowest tied rotation). -/
theorem C7_witness :
    bestIdx profileTie ≤ 2 ∧
    corrcoef profileTie (tmplF (bestIdx profileTie)) =
      corrcoef profileTie (tmplF 2) ∧
    best_key profileTie = key_name (bestIdx profileTie) :=
  C7_tiebreak profileTie 2 (by rw [covNum_profileTie]; norm_num)
    (fun k => (corrcoef_le_corrcoef profileTie (tmplF k) (tmplF 2)
      (by rw [covNum_profileTie]; norm_num) (tmpl_var k) (tmpl_var 2)).mpr
      (tie_max_at_2 k))

/-- C8: display rounding — on every successful analysis the result's bpm
field equals the estimated bpm rounded to two decimal places, the bpm entry
inside the features dict keeps the full-precision reconciled value, and no
feature field is altered during assembly (the result embeds the extracted
features dict unchanged). -/
theorem C8_display_rounding (e : ExtractEnv) (f : FeatureMap)
    (hf : extract_features e = some f) :
    ∃ r : AnalysisResult, analyze_song e = Except.ok (some r) ∧
      r.bpm = round2 (reconcileTempo e.tempo e.tempo_alt) ∧
      f.bpm = some (reconcileTempo e.tempo e.tempo_alt) ∧
      r.features = f ∧ r.key = keyOfChroma e.chroma ∧
      r.genre = predict_genre f := by
  obtain ⟨h1, h2, h3⟩ := flags_of_extract_some e f hf
  have hfe := extract_features_eq_some e f hf
  subst hfe
  exact ⟨_, analyze_song_success e h1 h2 h3, rfl, rfl, rfl, rfl, rfl⟩

/-- C8 witness: environment with tempo estimates 130 and 100; the features
keep the reconciled 115 while the displayed bpm is its two-decimal
rounding. -/
theorem C8_witness :
    ∃ r : AnalysisResult, analyze_song env8 = Except.ok (some r) ∧
      r.bpm = round2 (reconcileTempo env8.tempo env8.tempo_alt) ∧
      feat8.bpm = some (reconcileTempo env8.tempo env8.tempo_alt) ∧
      r.features = feat8 ∧ r.key = keyOfChroma env8.chroma ∧
      r.genre = predict_genre feat8 :=
  C8_display_rounding env8 feat8 extract_env8

/-- C9 counterexample: a decoder failure and an analysis-pipeline failure
produce the identical outcome, so no caller-side test can tell them
apart. -/
theorem C9_counterexample :
    analyze_song envDecodeFail = analyze_song envXformFail ∧
    ¬∃ discr : Except String (Option AnalysisResult) → Bool,
      discr (analyze_song envDecodeFail) = true ∧
      discr (analyze_song envXformFail) = false := by
  refine ⟨rfl, ?_⟩
  rintro ⟨g, hg1, hg2⟩
  rw [show analyze_song envDecodeFail = analyze_song envXformFail from rfl]
    at hg1
  rw [hg1] at hg2
  exact Bool.noConfusion hg2

/-- C9 (amended): a failure of the decoding collaborator yields the same
untyped outcome None as a failure of the analysis pipeline itself; the
caller can distinguish failure from success but not a decode failure from
an analysis failure. -/
theorem C9_decode_vs_analysis (e eX : ExtractEnv)
    (hd : e.decodeOk = false) (ht : eX.transformOk = false) :
    analyze_song e = Except.ok none ∧ analyze_song e = analyze_song eX := by
  have h1 := analyze_song_none e (Or.inr (Or.inl hd))
  have h2 := analyze_song_none eX (Or.inr (Or.inr ht))
  exact ⟨h1, h1.trans h2.symm⟩

/-- C9 witness: the concrete decode-failure and transform-failure
environments produce the same None outcome. -/
theorem C9_witness :
    analyze_song envDecodeFail = Except.ok none ∧
    analyze_song envDecodeFail = analyze_song envXformFail :=
  C9_decode_vs_analysis envDecodeFail envXformFail rfl rfl

/-- C10 counterexample: for a features dict lacking bpm the classifier does
return "Unknown", but the assembly itself raises KeyError, so no result
containing the label is produced — contradicting the claim that a result
assembled from such features still carries the label. -/
theorem C10_counterexample :
    predict_genre featNoBpm = "Unknown" ∧
    assemble featNoBpm = Except.error "KeyError: bpm" := ⟨rfl, rfl⟩

/-- C10 (amended): when a features dict lacks bpm, spectral_centroid_mean
or zcr_mean the classifier does not raise and returns "Unknown", a sixth
label outside the five documented genres; a result assembled from such
features carries this label in its genre field provided the dict still has
its key and bpm entries — if bpm (or key) is absent the assembly itself
raises KeyError and no result is produced at all. -/
theorem C10_unknown_genre (f : FeatureMap)
    (h : f.bpm = none ∨ f.spectral_centroid_mean = none ∨
      f.zcr_mean = none) :
    predict_genre f = "Unknown" ∧ "Unknown" ∉ genreLabels ∧
    ∀ k b, f.key = some k → f.bpm = some b →
      ∃ r : AnalysisResult, assemble f = Except.ok r ∧
        r.genre = "Unknown" := by
  have hu : predict_genre f = "Unknown" := by
    rcases hb : f.bpm with _ | b <;>
      rcases hc : f.spectral_centroid_mean with _ | c <;>
      rcases hz : f.zcr_mean with _ | z <;>
      simp_all [predict_genre]
  refine ⟨hu, by decide, ?_⟩
  intro k b hk hb
  refine ⟨AnalysisResult.mk k (round2 b) (predict_genre f) f, ?_, hu⟩
  unfold assemble
  rw [hk, hb]

/-- C10 witness: a dict lacking only zcr_mean classifies as "Unknown" and
the assembled result still carries that label. -/
theorem C10_witness :
    predict_genre featNoZcr = "Unknown" ∧ "Unknown" ∉ genreLabels ∧
    ∀ k b, featNoZcr.key = some k → featNoZcr.bpm = some b →
      ∃ r : AnalysisResult, assemble featNoZcr = Except.ok r ∧
        r.genre = "Unknown" :=
  C10_unknown_genre featNoZcr (Or.inr (Or.inr rfl))
